import Mathlib

/-
Shallow embedding of `src/validate.py` (faneX-ID/integration-validation), a
repository-validation tool for an addon ecosystem.  Files on disk are modelled
as an explicit filesystem value; Python exceptions are modelled with an
`Outcome` sum; decoded JSON documents are modelled by the inductive `JValue`.
Each definition mirrors the corresponding Python function or statement block
of the source; `src` line numbers are given in the doc comments.
-/

set_option autoImplicit false

namespace Validate

/-- Decoded JSON value, as produced by Python's `json.load`.  An `obj` carries
its key/value pairs as an association list in insertion order; since
`json.load` returns a `dict`, the keys of an `obj` are distinct by
construction.  Numbers are integers (no claim involves JSON floats). -/
inductive JValue where
  | null : JValue
  | bool : Bool → JValue
  | num : Int → JValue
  | str : String → JValue
  | arr : List JValue → JValue
  | obj : List (String × JValue) → JValue

/-- Result of running a piece of Python code: a value, or an uncaught
exception carrying its description. -/
inductive Outcome (α : Type) where
  | ok : α → Outcome α
  | exn : String → Outcome α

/-- Content of a file on disk, as seen through `json.load`: either a document
that decodes to a `JValue`, or bytes that raise `json.JSONDecodeError` with a
message and a line/column position.  Files that are never parsed (such as
`integration.py`) can carry either constructor; only their existence is
observed. -/
inductive FileContent where
  | jsonOk : JValue → FileContent
  | jsonBad : String → Nat → Nat → FileContent

/-- The local filesystem: the set of directories and the set of regular files
with their contents. -/
structure FS where
  dirs : List String
  files : List (String × FileContent)

/-- First file binding for a path, if any (reading an existing regular
file). -/
def FS.read (fs : FS) (p : String) : Option FileContent :=
  match fs.files.find? (fun f => f.1 = p) with
  | some f => some f.2
  | none => none

/-- Python `os.path.exists`: true for regular files and directories. -/
def FS.existsPath (fs : FS) (p : String) : Bool :=
  fs.files.any (fun f => f.1 = p) || fs.dirs.any (fun d => d = p)

/-- Python `os.path.isdir`. -/
def FS.isDir (fs : FS) (p : String) : Bool :=
  fs.dirs.any (fun d => d = p)

/-- Whether the first character of a string is a slash. -/
def headIsSlash (s : String) : Bool :=
  match s.data with
  | c :: _ => c = '/'
  | [] => false

/-- Whether the last character of a string is a slash. -/
def lastIsSlash (s : String) : Bool :=
  match s.data.getLast? with
  | some c => c = '/'
  | none => false

/-- Python `os.path.join(a, b)` on POSIX: an absolute second component
replaces the first, otherwise the components are joined with a single
separator. -/
def osJoin (a b : String) : String :=
  if headIsSlash b then b
  else if a = "" then b
  else if lastIsSlash a then a ++ b
  else a ++ "/" ++ b

/-- Python truthiness of a decoded JSON value (`None`, `False`, `0`, `""`,
`[]`, `{}` are falsy). -/
def pyTruthy : JValue → Bool
  | JValue.null => false
  | JValue.bool b => b
  | JValue.num n => decide (n ≠ 0)
  | JValue.str s => decide (s ≠ "")
  | JValue.arr xs => !xs.isEmpty
  | JValue.obj kvs => !kvs.isEmpty

/-- Truthiness of the optional `--core-version` CLI string (`None` and `""`
are falsy). -/
def optStrTruthy : Option String → Bool
  | none => false
  | some s => decide (s ≠ "")

/-- Lookup in a decoded JSON object; `JValue.null` models the Python `None`
default of `dict.get`. -/
def jLookup : List (String × JValue) → String → JValue
  | [], _ => JValue.null
  | (k, v) :: rest, key => if k = key then v else jLookup rest key

/-- Whether an object carries a key. -/
def jHasKey (kvs : List (String × JValue)) (key : String) : Bool :=
  kvs.any (fun p => p.1 = key)

/-- List-of-chars test: does the second list start with the first? -/
def leadsWith : List Char → List Char → Bool
  | [], _ => true
  | _ :: _, [] => false
  | a :: t1, b :: t2 => a = b && leadsWith t1 t2

/-- List-of-chars test: does the second list contain the first as a
contiguous run? -/
def containsRun : List Char → List Char → Bool
  | needle, [] => needle.isEmpty
  | needle, c :: rest => leadsWith needle (c :: rest) || containsRun needle rest

/-- Python `needle in hay` on strings (substring test). -/
def strContains (hay needle : String) : Bool :=
  containsRun needle.data hay.data

/-- Python membership `key in container` for a decoded JSON value: key lookup
for dicts, element equality for lists, substring for strings, `TypeError`
otherwise. -/
def pyContains : JValue → String → Outcome Bool
  | JValue.obj kvs, key => Outcome.ok (jHasKey kvs key)
  | JValue.arr xs, key =>
      Outcome.ok (xs.any (fun x => match x with | JValue.str s => s = key | _ => false))
  | JValue.str s, key => Outcome.ok (strContains s key)
  | _, _ => Outcome.exn "TypeError: argument is not iterable"

/-- Python `container.get(key)`: defined on dicts only, `None` default;
`AttributeError` on any other decoded value. -/
def pyGet : JValue → String → Outcome JValue
  | JValue.obj kvs, key => Outcome.ok (jLookup kvs key)
  | _, _ => Outcome.exn "AttributeError: get"

/-- Python `container[key]` for a string key: `KeyError` on a dict without
the key, `TypeError` on non-dicts. -/
def pyGetItem : JValue → String → Outcome JValue
  | JValue.obj kvs, key =>
      if jHasKey kvs key then Outcome.ok (jLookup kvs key) else Outcome.exn "KeyError"
  | _, _ => Outcome.exn "TypeError: indices must be integers"

/-- Whether a decoded value is a JSON array (Python `isinstance(v, list)`). -/
def JValue.isArr : JValue → Bool
  | JValue.arr _ => true
  | _ => false

/-- Whether a decoded value is a JSON object (Python `isinstance(v, dict)`). -/
def JValue.isObj : JValue → Bool
  | JValue.obj _ => true
  | _ => false

/-- ASCII uppercase letter. -/
def isAsciiUpper (c : Char) : Bool := decide (65 ≤ c.toNat ∧ c.toNat ≤ 90)

/-- ASCII lowercase letter. -/
def isAsciiLower (c : Char) : Bool := decide (97 ≤ c.toNat ∧ c.toNat ≤ 122)

/-- ASCII decimal digit. -/
def isAsciiDigit (c : Char) : Bool := decide (48 ≤ c.toNat ∧ c.toNat ≤ 57)

/-- First character of the ASCII identifier pattern `[A-Za-z_]`. -/
def asciiIdentStart (c : Char) : Bool :=
  decide (c.toNat = 95) || isAsciiUpper c || isAsciiLower c

/-- Continuation character of the ASCII identifier pattern `[A-Za-z0-9_]`. -/
def asciiIdentCont (c : Char) : Bool :=
  asciiIdentStart c || isAsciiDigit c

/-- Stated from the specification for comparison with the source: a match of
the regular expression pattern ^[A-Za-z_][A-Za-z0-9_]*$ (nonempty, ASCII
letter or underscore first, then ASCII letters, digits or underscores). -/
def asciiIdentMatch (s : String) : Bool :=
  match s.data with
  | [] => false
  | c :: cs => asciiIdentStart c && cs.all asciiIdentCont

/-- Unicode `XID_Start` characters beyond ASCII in the Latin-1 range
(`ª µ º À-Ö Ø-ö ø-ÿ`), exactly per the Unicode character database. -/
def latin1XidStartExtra (c : Char) : Bool :=
  decide (c.toNat = 170 ∨ c.toNat = 181 ∨ c.toNat = 186 ∨
    (192 ≤ c.toNat ∧ c.toNat ≤ 214) ∨ (216 ≤ c.toNat ∧ c.toNat ≤ 246) ∨
    (248 ≤ c.toNat ∧ c.toNat ≤ 255))

/-- First character accepted by Python `str.isidentifier`: `XID_Start` or an
underscore. -/
def pyIdentStart (c : Char) : Bool :=
  asciiIdentStart c || latin1XidStartExtra c

/-- Continuation character accepted by Python `str.isidentifier`:
`XID_Continue` (which in the Latin-1 range adds the digits, the underscore
and U+00B7 to the `XID_Start` set). -/
def pyIdentCont (c : Char) : Bool :=
  pyIdentStart c || isAsciiDigit c || decide (c.toNat = 183)

/-- Python `str.isidentifier` (used at `src/validate.py:80`): nonempty, first
character `XID_Start` or `_`, remaining characters `XID_Continue`, per
UAX 31.  The character tables are embedded exactly for codepoints up to
U+00FF, the range exercised in this development; higher codepoints (some of
which Python also accepts) are mapped to `false` and appear in no theorem. -/
def pyIsIdentifier (s : String) : Bool :=
  match s.data with
  | [] => false
  | c :: cs => pyIdentStart c && cs.all pyIdentCont

/-- Python `domain.isidentifier()` on a decoded JSON value: defined on
strings only, `AttributeError` otherwise (`src/validate.py:80`). -/
def pyIsIdentifierJ : JValue → Outcome Bool
  | JValue.str s => Outcome.ok (pyIsIdentifier s)
  | _ => Outcome.exn "AttributeError: isidentifier"

/-- Decimal value of a digit list (most significant first). -/
def natOfDigits (ds : List Char) : Nat :=
  ds.foldl (fun a c => a * 10 + (c.toNat - 48)) 0

/-- All characters are ASCII digits. -/
def allDigits (ds : List Char) : Bool :=
  ds.all (fun c => isAsciiDigit c)

/-- Split a character list at every dot, like `"".join`-inverse of
`str.split(".")`. -/
def splitDots : List Char → List (List Char)
  | [] => [[]]
  | c :: rest =>
    if c = '.' then [] :: splitDots rest
    else
      match splitDots rest with
      | [] => [[c]]
      | s :: ss => (c :: s) :: ss

/-- Parsed version in the modelled subset of `packaging.version` (PEP 440): a
dotted numeric release and an optional pre-release pair (phase, number) with
phase 0 = `a`, 1 = `b`, 2 = `rc`. -/
structure PVersion where
  release : List Nat
  preSeg : Option (Nat × Nat)

/-- Optional pre-release number directly after a tag; an absent number means
0, as in `packaging` (`1.0a` is `1.0a0`). -/
def parsePreNum (phase : Nat) (r : List Char) : Option (Nat × Nat) :=
  if r = [] then some (phase, 0)
  else if allDigits r then some (phase, natOfDigits r) else none

/-- Parse the last dotted segment: digits optionally followed by a
pre-release tag `a`, `b` or `rc` and its number. -/
def parseLastSeg (cs : List Char) : Option (Nat × Option (Nat × Nat)) :=
  let ds := cs.takeWhile (fun c => isAsciiDigit c)
  let rest := cs.dropWhile (fun c => isAsciiDigit c)
  if ds = [] then none
  else
    match rest with
    | [] => some (natOfDigits ds, none)
    | 'a' :: r => (parsePreNum 0 r).map (fun p => (natOfDigits ds, some p))
    | 'b' :: r => (parsePreNum 1 r).map (fun p => (natOfDigits ds, some p))
    | 'r' :: 'c' :: r => (parsePreNum 2 r).map (fun p => (natOfDigits ds, some p))
    | _ => none

/-- Parse the leading dotted segments, each a nonempty digit run. -/
def parseReleaseSegs : List (List Char) → Option (List Nat)
  | [] => some []
  | seg :: rest =>
    if seg ≠ [] ∧ allDigits seg then
      (parseReleaseSegs rest).map (fun l => natOfDigits seg :: l)
    else none

/-- Model of `packaging.version.parse` restricted to the subset the tool's
inputs exercise: a dotted numeric release with an optional attached
pre-release tag (`a`, `b`, `rc`), e.g. `2.0.0`, `1.10`, `1.0rc1`.  Strings
outside the subset (including the empty string and non-version text) fail to
parse, modelling `InvalidVersion`; epoch, post, dev and local segments and
separator or case variants are outside the subset and appear in no theorem. -/
def pyVersionParseStr (s : String) : Option PVersion :=
  match (splitDots s.data).reverse with
  | [] => none
  | lastSeg :: initRev =>
    match parseReleaseSegs initRev.reverse, parseLastSeg lastSeg with
    | some nums, some (n, p) => some ⟨nums ++ [n], p⟩
    | _, _ => none

/-- Version parse of a decoded JSON value.  `packaging` raises `TypeError`
on a non-string and `InvalidVersion` on a malformed string; both are caught
by the same `except` branch at `src/validate.py:111`, so both are modelled
as parse failure. -/
def pyVersionParseJ : JValue → Option PVersion
  | JValue.str s => pyVersionParseStr s
  | _ => none

/-- Release tuples compare with trailing zeros removed, as in
`packaging.version._cmpkey`. -/
def stripTrailingZeros (l : List Nat) : List Nat :=
  ((l.reverse).dropWhile (fun n => n == 0)).reverse

/-- Lexicographic comparison of numeric lists, a proper prefix being
smaller (Python tuple comparison). -/
def cmpListNat : List Nat → List Nat → Ordering
  | [], [] => Ordering.eq
  | [], _ :: _ => Ordering.lt
  | _ :: _, [] => Ordering.gt
  | a :: t1, b :: t2 =>
    if a < b then Ordering.lt else if b < a then Ordering.gt else cmpListNat t1 t2

/-- Pre-release comparison: any pre-release sorts before the final release
with the same numeric part; pre-releases compare by phase then number. -/
def cmpPre : Option (Nat × Nat) → Option (Nat × Nat) → Ordering
  | none, none => Ordering.eq
  | some _, none => Ordering.lt
  | none, some _ => Ordering.gt
  | some (p1, n1), some (p2, n2) =>
    if p1 < p2 then Ordering.lt else if p2 < p1 then Ordering.gt
    else if n1 < n2 then Ordering.lt else if n2 < n1 then Ordering.gt
    else Ordering.eq

/-- Total comparison of parsed versions, mirroring
`packaging.version._cmpkey` on the modelled subset. -/
def cmpPV (a b : PVersion) : Ordering :=
  match cmpListNat (stripTrailingZeros a.release) (stripTrailingZeros b.release) with
  | Ordering.eq => cmpPre a.preSeg b.preSeg
  | o => o

/-- Python `version.parse(a) > version.parse(b)` (`src/validate.py:108`). -/
def pvGt (a b : PVersion) : Bool :=
  match cmpPV a b with
  | Ordering.gt => true
  | _ => false

/-- Location accumulation of the `error` reporter (`src/validate.py:18`):
each truthy argument appends its `key=value` piece (line and column with a
leading comma). -/
def errorLocation (file : Option String) (line col : Option Nat) : String :=
  (match file with
    | some f => if f = "" then "" else "file=" ++ f
    | none => "")
  ++ (match line with
    | some l => if l = 0 then "" else ",line=" ++ toString l
    | none => "")
  ++ (match col with
    | some c => if c = 0 then "" else ",col=" ++ toString c
    | none => "")

/-- The `error` reporter (`src/validate.py:16`): builds the optional
location from the truthy arguments, prints one GitHub annotation line to
standard output and one `ERROR:` line to standard error.  Returns
(stdout lines, stderr lines) of the call. -/
def error (message : String) (file : Option String) (line col : Option Nat) :
    List String × List String :=
  let location := errorLocation file line col
  let stdoutLine :=
    if location = "" then "::error::" ++ message
    else "::error " ++ location ++ "::" ++ message
  ([stdoutLine], ["ERROR: " ++ message])

/-- One recorded call to the `error` reporter, tagged by its call site in
`src/validate.py` and carrying the data interpolated into the message. -/
inductive ValError where
  /-- Line 35: `addons.json` missing in the repository root. -/
  | missingFile (file : String)
  /-- Line 42: invalid JSON in `addons.json`. -/
  | indexParseError (file : String) (line col : Nat) (msg : String)
  /-- Line 46: no top-level list-valued `addons` field. -/
  | schemaError (file : String)
  /-- Line 54: addon subdirectory absent. -/
  | missingDirectory (addonId file : String)
  /-- Line 60: `manifest.json` absent. -/
  | missingManifest (addonId file : String)
  /-- Line 68: invalid JSON in `manifest.json`. -/
  | manifestParseError (addonId file msg : String) (line col : Nat)
  /-- Line 75: first required manifest field that is missing. -/
  | missingField (field file : String)
  /-- Line 81: domain fails `isidentifier`. -/
  | invalidDomain (domain : JValue) (file : String)
  /-- Line 94: no `implementations` map and no implicit `integration.py`. -/
  | missingImplementations (addonId file : String)
  /-- Line 101: a listed implementation file is absent. -/
  | missingImplementationFile (filename lang addonId file : String)
  /-- Line 109: manifest minimum exceeds the supplied core version. -/
  | incompatibleCoreVersion (addonId : String) (minVer : JValue) (coreVer file : String)
  /-- Line 112: version parsing or comparison raised. -/
  | versionParseError (addonId : String) (minVer : JValue) (coreVer file : String)
  /-- Line 142: index entry without a truthy `id`. -/
  | entryMissingId (index : Nat) (file : String)

/-- The `validate_addons_json` function (`src/validate.py:32`): locate and
decode `addons.json` and check its schema; `Outcome.ok none` models the
Python `return None`. -/
def validate_addons_json (fs : FS) (repo_path : String) :
    List ValError × Outcome (Option JValue) :=
  let json_path := osJoin repo_path "addons.json"
  if fs.existsPath json_path = false then
    ([ValError.missingFile json_path], Outcome.ok none)
  else
    match fs.read json_path with
    | none => ([], Outcome.exn "IsADirectoryError")
    | some (FileContent.jsonBad msg line col) =>
        ([ValError.indexParseError json_path line col msg], Outcome.ok none)
    | some (FileContent.jsonOk data) =>
        match pyContains data "addons" with
        | Outcome.exn m => ([], Outcome.exn m)
        | Outcome.ok has =>
          if has = false then ([ValError.schemaError json_path], Outcome.ok none)
          else
            match pyGetItem data "addons" with
            | Outcome.exn m => ([], Outcome.exn m)
            | Outcome.ok v =>
              if v.isArr = false then ([ValError.schemaError json_path], Outcome.ok none)
              else ([], Outcome.ok (some data))

/-- The list `required_manifest_fields` (`src/validate.py:72`). -/
def requiredManifestFields : List String := ["domain", "name", "version"]

/-- The required-fields loop (`src/validate.py:73`): the first field, in
list order, that is not `in` the manifest. -/
def firstMissingField (m : JValue) : List String → Outcome (Option String)
  | [] => Outcome.ok none
  | f :: rest =>
    match pyContains m f with
    | Outcome.exn e => Outcome.exn e
    | Outcome.ok true => firstMissingField m rest
    | Outcome.ok false => Outcome.ok (some f)

/-- The `implementations.items()` loop (`src/validate.py:98`): the first
listed implementation file absent from the addon directory, if any; a
non-string filename raises `TypeError` inside `os.path.join`. -/
def implFilesLoop (fs : FS) (addon_path addon_id : String) :
    List (String × JValue) → Outcome (Option ValError)
  | [] => Outcome.ok none
  | (lang, v) :: rest =>
    match v with
    | JValue.str filename =>
      let fp := osJoin addon_path filename
      if fs.existsPath fp = false then
        Outcome.ok (some (ValError.missingImplementationFile filename lang addon_id fp))
      else implFilesLoop fs addon_path addon_id rest
    | _ => Outcome.exn "TypeError: join"

/-- The core-version block (`src/validate.py:104`): runs only when the
manifest's `min_core_version`, the supplied core version and the `packaging`
capability are all truthy; parse failures of either string are caught and
reported, a greater minimum is incompatible. -/
def versionStage (manifest_path addon_id : String) (manifest : JValue)
    (core_version : Option String) (verAvail : Bool) : List ValError × Outcome Bool :=
  match pyGet manifest "min_core_version" with
  | Outcome.exn m => ([], Outcome.exn m)
  | Outcome.ok minv =>
    if (pyTruthy minv && optStrTruthy core_version && verAvail) = false then
      ([], Outcome.ok true)
    else
      match core_version with
      | none => ([], Outcome.ok true)
      | some cs =>
        match pyVersionParseJ minv with
        | none => ([ValError.versionParseError addon_id minv cs manifest_path], Outcome.ok false)
        | some mv =>
          match pyVersionParseStr cs with
          | none => ([ValError.versionParseError addon_id minv cs manifest_path], Outcome.ok false)
          | some cv =>
            if pvGt mv cv then
              ([ValError.incompatibleCoreVersion addon_id minv cs manifest_path], Outcome.ok false)
            else ([], Outcome.ok true)

/-- The `if implementations:` block (`src/validate.py:97`): iterate the
implementation map when truthy; `.items()` on a truthy non-dict raises
`AttributeError`. -/
def implItemsStage (fs : FS) (addon_path manifest_path addon_id : String)
    (manifest impl : JValue) (core_version : Option String) (verAvail : Bool) :
    List ValError × Outcome Bool :=
  if pyTruthy impl = false then
    versionStage manifest_path addon_id manifest core_version verAvail
  else
    match impl with
    | JValue.obj kvs =>
      match implFilesLoop fs addon_path addon_id kvs with
      | Outcome.exn m => ([], Outcome.exn m)
      | Outcome.ok (some e) => ([e], Outcome.ok false)
      | Outcome.ok none => versionStage manifest_path addon_id manifest core_version verAvail
    | _ => ([], Outcome.exn "AttributeError: items")

/-- The implementations check (`src/validate.py:84`): a falsy or non-dict
`implementations` falls back to the implicit `integration.py`; failing both
is `MissingImplementations`, otherwise flow continues with the
`if implementations:` loop. -/
def implStage (fs : FS) (addon_path manifest_path addon_id : String)
    (manifest : JValue) (core_version : Option String) (verAvail : Bool) :
    List ValError × Outcome Bool :=
  match pyGet manifest "implementations" with
  | Outcome.exn m => ([], Outcome.exn m)
  | Outcome.ok impl =>
    if (!pyTruthy impl || !impl.isObj) &&
        !(fs.existsPath (osJoin addon_path "integration.py")) then
      ([ValError.missingImplementations addon_id manifest_path], Outcome.ok false)
    else implItemsStage fs addon_path manifest_path addon_id manifest impl core_version verAvail

/-- The checks of `validate_addon_directory` on a decoded manifest
(`src/validate.py:71` onward): required fields, domain syntax, then the
implementations and core-version stages. -/
def manifestChecks (fs : FS) (addon_path manifest_path addon_id : String)
    (manifest : JValue) (core_version : Option String) (verAvail : Bool) :
    List ValError × Outcome Bool :=
  match firstMissingField manifest requiredManifestFields with
  | Outcome.exn m => ([], Outcome.exn m)
  | Outcome.ok (some f) => ([ValError.missingField f manifest_path], Outcome.ok false)
  | Outcome.ok none =>
    match pyGet manifest "domain" with
    | Outcome.exn m => ([], Outcome.exn m)
    | Outcome.ok domain =>
      match pyIsIdentifierJ domain with
      | Outcome.exn m => ([], Outcome.exn m)
      | Outcome.ok b =>
        if b = false then
          ([ValError.invalidDomain domain manifest_path], Outcome.ok false)
        else implStage fs addon_path manifest_path addon_id manifest core_version verAvail

/-- The `validate_addon_directory` function (`src/validate.py:51`): short
circuits through directory existence, manifest existence, manifest parse,
then the manifest checks, recording the first failure.  `verAvail` models
whether the `packaging` import succeeded (`src/validate.py:10`). -/
def validate_addon_directory (fs : FS) (repo_path addon_id : String)
    (core_version : Option String) (verAvail : Bool) : List ValError × Outcome Bool :=
  let addon_path := osJoin repo_path addon_id
  if fs.isDir addon_path = false then
    ([ValError.missingDirectory addon_id addon_path], Outcome.ok false)
  else
    let manifest_path := osJoin addon_path "manifest.json"
    if fs.existsPath manifest_path = false then
      ([ValError.missingManifest addon_id manifest_path], Outcome.ok false)
    else
      match fs.read manifest_path with
      | none => ([], Outcome.exn "IsADirectoryError")
      | some (FileContent.jsonBad msg line col) =>
          ([ValError.manifestParseError addon_id manifest_path msg line col], Outcome.ok false)
      | some (FileContent.jsonOk manifest) =>
          manifestChecks fs addon_path manifest_path addon_id manifest core_version verAvail

/-- The per-addon loop of `main` (`src/validate.py:138`): for each index
entry, read its `id`; a falsy `id` records an error and continues, a truthy
string `id` runs `validate_addon_directory`, a truthy non-string `id` raises
`TypeError` inside `os.path.join`.  Returns the errors in emission order,
the addon ids actually passed to `validate_addon_directory`, and the final
value of the `success` flag (or the uncaught exception). -/
def runEntries (fs : FS) (repo_path : String) (core_version : Option String)
    (verAvail : Bool) (json_path : String) :
    List JValue → Nat → List ValError × List String × Outcome Bool
  | [], _ => ([], [], Outcome.ok true)
  | e :: rest, i =>
    match pyGet e "id" with
    | Outcome.exn m => ([], [], Outcome.exn m)
    | Outcome.ok idv =>
      if pyTruthy idv = false then
        match runEntries fs repo_path core_version verAvail json_path rest (i + 1) with
        | (errs, vts, Outcome.exn m) =>
            (ValError.entryMissingId i json_path :: errs, vts, Outcome.exn m)
        | (errs, vts, Outcome.ok _) =>
            (ValError.entryMissingId i json_path :: errs, vts, Outcome.ok false)
      else
        match idv with
        | JValue.str addon_id =>
          match validate_addon_directory fs repo_path addon_id core_version verAvail with
          | (errs, Outcome.exn m) => (errs, [addon_id], Outcome.exn m)
          | (errs, Outcome.ok ok) =>
            match runEntries fs repo_path core_version verAvail json_path rest (i + 1) with
            | (errs2, vts, Outcome.exn m) => (errs ++ errs2, addon_id :: vts, Outcome.exn m)
            | (errs2, vts, Outcome.ok s) => (errs ++ errs2, addon_id :: vts, Outcome.ok (ok && s))
        | _ => ([], [], Outcome.exn "TypeError: join")

/-- Observable result of one run of `main` (`src/validate.py:117`): the
reported errors in order, the addon ids passed to per-addon validation, and
the exit code (or uncaught exception). -/
structure MainOut where
  errors : List ValError
  validated : List String
  result : Outcome Nat

/-- The `main` driver (`src/validate.py:117`): load and check the index,
loop over its entries accumulating the `success` flag, exit 0 on success and
1 otherwise. -/
def main_run (fs : FS) (repo_path : String) (core_version : Option String)
    (verAvail : Bool) : MainOut :=
  let json_path := osJoin repo_path "addons.json"
  match validate_addons_json fs repo_path with
  | (errs, Outcome.exn m) => ⟨errs, [], Outcome.exn m⟩
  | (errs, Outcome.ok none) => ⟨errs, [], Outcome.ok 1⟩
  | (errs, Outcome.ok (some data)) =>
    if pyTruthy data = false then ⟨errs, [], Outcome.ok 1⟩
    else
      match pyGetItem data "addons" with
      | Outcome.exn m => ⟨errs, [], Outcome.exn m⟩
      | Outcome.ok (JValue.arr entries) =>
        match runEntries fs repo_path core_version verAvail json_path entries 0 with
        | (errs2, vts, Outcome.exn m) => ⟨errs ++ errs2, vts, Outcome.exn m⟩
        | (errs2, vts, Outcome.ok success) =>
          ⟨errs ++ errs2, vts, Outcome.ok (if success then 0 else 1)⟩
      | Outcome.ok _ =>
        -- Unreachable: `validate_addons_json` returns a document only after
        -- checking `isinstance(data["addons"], list)`.
        ⟨errs, [], Outcome.exn "TypeError: iteration"⟩

/-- How the driver loop treats one index entry: a non-dict entry or a truthy
non-string `id` would raise, a falsy `id` is reported and skipped, a truthy
string `id` is validated as an addon. -/
inductive EntryClass where
  | raises : EntryClass
  | noId : EntryClass
  | addon : String → EntryClass

/-- Classification of an index entry by the branch of the driver loop it
takes. -/
def classifyEntry : JValue → EntryClass
  | JValue.obj kvs =>
    if pyTruthy (jLookup kvs "id") = false then EntryClass.noId
    else
      (match jLookup kvs "id" with
        | JValue.str s => EntryClass.addon s
        | _ => EntryClass.raises)
  | _ => EntryClass.raises

/-- An entry the driver loop handles without an uncaught exception. -/
def entryOk (e : JValue) : Bool :=
  match classifyEntry e with
  | EntryClass.raises => false
  | _ => true

/-- The addon id the driver loop validates for an entry, if any. -/
def entryIdOf (e : JValue) : Option String :=
  match classifyEntry e with
  | EntryClass.addon s => some s
  | _ => none

/-- The addon ids the driver loop passes to `validate_addon_directory`, in
order. -/
def entryIds (entries : List JValue) : List String :=
  entries.filterMap entryIdOf

/-- Whether per-addon validation of an entry itself returns (rather than
raising), making the loop continue past it. -/
def entryValidateOk (fs : FS) (repo_path : String) (core_version : Option String)
    (verAvail : Bool) (e : JValue) : Bool :=
  match classifyEntry e with
  | EntryClass.addon s =>
    (match (validate_addon_directory fs repo_path s core_version verAvail).2 with
      | Outcome.ok _ => true
      | Outcome.exn _ => false)
  | _ => true

/-- Whether an entry leaves the driver's `success` flag intact: its id is
truthy and its addon validates. -/
def entrySucc (fs : FS) (repo_path : String) (core_version : Option String)
    (verAvail : Bool) (e : JValue) : Bool :=
  match classifyEntry e with
  | EntryClass.addon s =>
    (match (validate_addon_directory fs repo_path s core_version verAvail).2 with
      | Outcome.ok b => b
      | Outcome.exn _ => false)
  | _ => false

/-- The errors one entry contributes to the driver loop, at running index
`i`. -/
def entryErrs (fs : FS) (repo_path : String) (core_version : Option String)
    (verAvail : Bool) (json_path : String) (i : Nat) (e : JValue) : List ValError :=
  match classifyEntry e with
  | EntryClass.addon s => (validate_addon_directory fs repo_path s core_version verAvail).1
  | EntryClass.noId => [ValError.entryMissingId i json_path]
  | EntryClass.raises => []

/-- Concatenated errors of a list of entries starting at running index
`i`. -/
def entriesErrs (fs : FS) (repo_path : String) (core_version : Option String)
    (verAvail : Bool) (json_path : String) : List JValue → Nat → List ValError
  | [], _ => []
  | e :: rest, i =>
    entryErrs fs repo_path core_version verAvail json_path i e
      ++ entriesErrs fs repo_path core_version verAvail json_path rest (i + 1)

/-- A path with a readable file content exists on the filesystem. -/
theorem FS.read_exists {fs : FS} {p : String} {c : FileContent}
    (h : fs.read p = some c) : fs.existsPath p = true := by
  unfold FS.read at h
  unfold FS.existsPath
  cases hf : fs.files.find? (fun f => f.1 = p) with
  | none => rw [hf] at h; exact absurd h (by simp)
  | some f =>
    have hp := List.find?_some hf
    have hm := List.mem_of_find?_eq_some hf
    have : fs.files.any (fun f => f.1 = p) = true := List.any_eq_true.mpr ⟨f, hm, hp⟩
    simp [this]

/-- Looking up an absent key yields the Python `None` default. -/
theorem jLookup_of_not_hasKey {kvs : List (String × JValue)} {k : String}
    (h : jHasKey kvs k = false) : jLookup kvs k = JValue.null := by
  induction kvs with
  | nil => rfl
  | cons p rest ih =>
    simp only [jHasKey, List.any_cons, Bool.or_eq_false_iff] at h
    obtain ⟨h1, h2⟩ := h
    simp only [jLookup]
    rw [if_neg (by simpa using h1)]
    exact ih h2

/-- An object carrying a key is nonempty. -/
theorem hasKey_ne_nil {kvs : List (String × JValue)} {k : String}
    (h : jHasKey kvs k = true) : kvs.isEmpty = false := by
  cases kvs with
  | nil => exact absurd h (by simp [jHasKey])
  | cons p rest => rfl

/-- An absent addon directory short-circuits `validate_addon_directory` into
the `MissingDirectory` error. -/
theorem validate_missingDir {fs : FS} {repo_path addon_id : String}
    {core_version : Option String} {verAvail : Bool}
    (h : fs.isDir (osJoin repo_path addon_id) = false) :
    validate_addon_directory fs repo_path addon_id core_version verAvail =
      ([ValError.missingDirectory addon_id (osJoin repo_path addon_id)], Outcome.ok false) := by
  unfold validate_addon_directory
  simp [h]

/-- With the addon directory present and a decodable manifest,
`validate_addon_directory` runs exactly the manifest checks. -/
theorem validate_manifest {fs : FS} {repo_path addon_id : String}
    {core_version : Option String} {verAvail : Bool} {m : JValue}
    (hdir : fs.isDir (osJoin repo_path addon_id) = true)
    (hread : fs.read (osJoin (osJoin repo_path addon_id) "manifest.json")
      = some (FileContent.jsonOk m)) :
    validate_addon_directory fs repo_path addon_id core_version verAvail =
      manifestChecks fs (osJoin repo_path addon_id)
        (osJoin (osJoin repo_path addon_id) "manifest.json") addon_id m core_version verAvail := by
  unfold validate_addon_directory
  simp [hdir, FS.read_exists hread, hread]

/-- With the three required keys present, the required-fields loop passes. -/
theorem firstMissing_none {kvs : List (String × JValue)}
    (hd : jHasKey kvs "domain" = true) (hn : jHasKey kvs "name" = true)
    (hv : jHasKey kvs "version" = true) :
    firstMissingField (JValue.obj kvs) requiredManifestFields = Outcome.ok none := by
  simp [firstMissingField, requiredManifestFields, pyContains, hd, hn, hv]

/-- With required fields present and a string domain, the manifest checks
reduce to the domain-syntax decision. -/
theorem manifestChecks_domain {fs : FS} {addon_path manifest_path addon_id : String}
    {core_version : Option String} {verAvail : Bool}
    {kvs : List (String × JValue)} {d : String}
    (hd : jHasKey kvs "domain" = true) (hn : jHasKey kvs "name" = true)
    (hv : jHasKey kvs "version" = true)
    (hdom : jLookup kvs "domain" = JValue.str d) :
    manifestChecks fs addon_path manifest_path addon_id (JValue.obj kvs) core_version verAvail =
      (if pyIsIdentifier d = false then
        ([ValError.invalidDomain (JValue.str d) manifest_path], Outcome.ok false)
      else
        implStage fs addon_path manifest_path addon_id (JValue.obj kvs) core_version verAvail) := by
  unfold manifestChecks
  rw [firstMissing_none hd hn hv]
  simp [pyGet, hdom, pyIsIdentifierJ]

/-- With no `implementations` key, the implementations stage reduces to the
implicit `integration.py` fallback. -/
theorem implStage_noKey {fs : FS} {addon_path manifest_path addon_id : String}
    {core_version : Option String} {verAvail : Bool} {kvs : List (String × JValue)}
    (hno : jHasKey kvs "implementations" = false) :
    implStage fs addon_path manifest_path addon_id (JValue.obj kvs) core_version verAvail =
      (if fs.existsPath (osJoin addon_path "integration.py") = false then
        ([ValError.missingImplementations addon_id manifest_path], Outcome.ok false)
      else
        versionStage manifest_path addon_id (JValue.obj kvs) core_version verAvail) := by
  unfold implStage
  rw [show pyGet (JValue.obj kvs) "implementations"
      = Outcome.ok JValue.null from by simp [pyGet, jLookup_of_not_hasKey hno]]
  by_cases he : fs.existsPath (osJoin addon_path "integration.py") <;>
    simp [he, implItemsStage, pyTruthy]

/-- An ASCII identifier-start character is accepted by the Unicode table. -/
theorem asciiStart_pyStart {c : Char} (h : asciiIdentStart c = true) :
    pyIdentStart c = true := by
  simp [pyIdentStart, h]

/-- An ASCII identifier-continuation character is accepted by the Unicode
table. -/
theorem asciiCont_pyCont {c : Char} (h : asciiIdentCont c = true) :
    pyIdentCont c = true := by
  unfold asciiIdentCont at h
  unfold pyIdentCont pyIdentStart
  simp only [Bool.or_eq_true] at h ⊢
  tauto

/-- Below codepoint 128 the extra Latin-1 start characters are absent. -/
theorem latin1Extra_ascii {c : Char} (h : c.toNat < 128) :
    latin1XidStartExtra c = false := by
  unfold latin1XidStartExtra
  simp only [decide_eq_false_iff_not]
  omega

/-- On ASCII characters the Unicode start table coincides with the ASCII
pattern. -/
theorem pyStart_ascii {c : Char} (h : c.toNat < 128) :
    pyIdentStart c = asciiIdentStart c := by
  unfold pyIdentStart
  rw [latin1Extra_ascii h, Bool.or_false]

/-- On ASCII characters the Unicode continuation table coincides with the
ASCII pattern. -/
theorem pyCont_ascii {c : Char} (h : c.toNat < 128) :
    pyIdentCont c = asciiIdentCont c := by
  unfold pyIdentCont asciiIdentCont
  rw [pyStart_ascii h]
  have h183 : decide (c.toNat = 183) = false := by
    simp only [decide_eq_false_iff_not]; omega
  rw [h183, Bool.or_false]

/-- A string matching the ASCII identifier pattern passes Python
`str.isidentifier`. -/
theorem asciiMatch_pyIdent {s : String} (h : asciiIdentMatch s = true) :
    pyIsIdentifier s = true := by
  unfold asciiIdentMatch at h
  unfold pyIsIdentifier
  cases hd : s.data with
  | nil => rw [hd] at h; exact absurd h (by simp)
  | cons c cs =>
    rw [hd] at h
    simp only [Bool.and_eq_true] at h ⊢
    obtain ⟨h1, h2⟩ := h
    refine ⟨asciiStart_pyStart h1, ?_⟩
    rw [List.all_eq_true] at h2 ⊢
    exact fun x hx => asciiCont_pyCont (h2 x hx)

/-- On all-ASCII character lists the two continuation scans agree. -/
theorem all_pyCont_eq_ascii {cs : List Char}
    (h : cs.all (fun c => decide (c.toNat < 128)) = true) :
    cs.all pyIdentCont = cs.all asciiIdentCont := by
  induction cs with
  | nil => rfl
  | cons x t ih =>
    simp only [List.all_cons, Bool.and_eq_true, decide_eq_true_eq] at h
    obtain ⟨hx, ht⟩ := h
    simp only [List.all_cons]
    rw [pyCont_ascii hx, ih ht]

/-- On all-ASCII strings Python `str.isidentifier` is exactly the ASCII
identifier pattern. -/
theorem pyIdent_eq_asciiMatch {s : String}
    (h : s.data.all (fun c => decide (c.toNat < 128)) = true) :
    pyIsIdentifier s = asciiIdentMatch s := by
  unfold pyIsIdentifier asciiIdentMatch
  cases hd : s.data with
  | nil => rfl
  | cons c cs =>
    rw [hd] at h
    simp only [List.all_cons, Bool.and_eq_true, decide_eq_true_eq] at h
    obtain ⟨h1, h2⟩ := h
    show (pyIdentStart c && cs.all pyIdentCont)
      = (asciiIdentStart c && cs.all asciiIdentCont)
    rw [pyStart_ascii h1, all_pyCont_eq_ascii h2]

/-- Swapping the arguments of the release comparison swaps the ordering. -/
theorem cmpListNat_swap (a b : List Nat) : cmpListNat b a = (cmpListNat a b).swap := by
  induction a generalizing b with
  | nil => cases b <;> rfl
  | cons x t ih =>
    cases b with
    | nil => rfl
    | cons y u =>
      unfold cmpListNat
      rcases Nat.lt_trichotomy x y with h | h | h
      · rw [if_neg (by omega), if_pos h, if_pos h]; rfl
      · subst h
        rw [if_neg (by omega), if_neg (by omega), if_neg (by omega), if_neg (by omega)]
        exact ih u
      · rw [if_pos h, if_neg (by omega), if_pos h]; rfl

/-- Swapping the arguments of the pre-release comparison swaps the
ordering. -/
theorem cmpPre_swap (a b : Option (Nat × Nat)) : cmpPre b a = (cmpPre a b).swap := by
  cases a with
  | none => cases b with
    | none => rfl
    | some p => rfl
  | some p =>
    cases b with
    | none => rfl
    | some q =>
      obtain ⟨p1, n1⟩ := p
      obtain ⟨q1, m1⟩ := q
      show (if q1 < p1 then Ordering.lt else if p1 < q1 then Ordering.gt
          else if m1 < n1 then Ordering.lt else if n1 < m1 then Ordering.gt
          else Ordering.eq)
        = (if p1 < q1 then Ordering.lt else if q1 < p1 then Ordering.gt
          else if n1 < m1 then Ordering.lt else if m1 < n1 then Ordering.gt
          else Ordering.eq).swap
      split_ifs <;> first | rfl | (exfalso; omega)

/-- Swapping the arguments of the version comparison swaps the ordering. -/
theorem cmpPV_swap (a b : PVersion) : cmpPV b a = (cmpPV a b).swap := by
  unfold cmpPV
  rw [cmpListNat_swap]
  cases cmpListNat (stripTrailingZeros a.release) (stripTrailingZeros b.release) with
  | lt => rfl
  | eq => exact cmpPre_swap a.preSeg b.preSeg
  | gt => rfl

/-- If `b` is not below `a`, then `a` is not strictly above `b`. -/
theorem pvGt_false_of_ge {a b : PVersion} (h : cmpPV b a ≠ Ordering.lt) :
    pvGt a b = false := by
  unfold pvGt
  rw [show cmpPV a b = (cmpPV b a).swap from cmpPV_swap b a]
  cases hc : cmpPV b a with
  | lt => exact absurd hc h
  | eq => rfl
  | gt => rfl

/-- The empty string is not a parseable version. -/
theorem parse_empty_none : pyVersionParseStr "" = none := rfl

/-- Errors of appended entry lists concatenate, with the running index
shifted by the first list's length. -/
theorem entriesErrs_append (fs : FS) (repo_path : String) (core_version : Option String)
    (verAvail : Bool) (json_path : String) (l1 l2 : List JValue) (i : Nat) :
    entriesErrs fs repo_path core_version verAvail json_path (l1 ++ l2) i =
      entriesErrs fs repo_path core_version verAvail json_path l1 i
        ++ entriesErrs fs repo_path core_version verAvail json_path l2 (i + l1.length) := by
  induction l1 generalizing i with
  | nil => simp [entriesErrs]
  | cons e rest ih =>
    have h : i + (rest.length + 1) = i + 1 + rest.length := by omega
    simp only [List.cons_append, entriesErrs, List.append_eq, List.length_cons, h,
      ih (i + 1), List.append_assoc]

/-- The driver loop on crash-free entries whose validations return: errors,
validated ids and success flag are the per-entry ones. -/
theorem runEntries_spec (fs : FS) (repo_path : String) (core_version : Option String)
    (verAvail : Bool) (json_path : String) (entries : List JValue) :
    ∀ i, entries.all entryOk = true →
      entries.all (entryValidateOk fs repo_path core_version verAvail) = true →
      runEntries fs repo_path core_version verAvail json_path entries i =
        (entriesErrs fs repo_path core_version verAvail json_path entries i, entryIds entries,
          Outcome.ok (entries.all (entrySucc fs repo_path core_version verAvail))) := by
  induction entries with
  | nil => intro i _ _; rfl
  | cons e rest ih =>
    intro i hok hval
    simp only [List.all_cons, Bool.and_eq_true] at hok hval
    obtain ⟨he, hrest⟩ := hok
    obtain ⟨hev, hrestv⟩ := hval
    have ihr := ih (i + 1) hrest hrestv
    cases e with
    | null => exact absurd he (by simp [entryOk, classifyEntry])
    | bool b => exact absurd he (by simp [entryOk, classifyEntry])
    | num n => exact absurd he (by simp [entryOk, classifyEntry])
    | str s => exact absurd he (by simp [entryOk, classifyEntry])
    | arr xs => exact absurd he (by simp [entryOk, classifyEntry])
    | obj kvs =>
      by_cases hft : pyTruthy (jLookup kvs "id") = false
      · have hcls : classifyEntry (JValue.obj kvs) = EntryClass.noId := by
          simp [classifyEntry, hft]
        simp [runEntries, pyGet, hft, ihr, entriesErrs, entryErrs, hcls, entryIds,
          entryIdOf, entrySucc, List.filterMap_cons, List.all_cons]
      · cases hid : jLookup kvs "id" with
        | str s =>
          rw [hid] at hft
          have hcls : classifyEntry (JValue.obj kvs) = EntryClass.addon s := by
            simp [classifyEntry, hid, hft]
          cases hvd : validate_addon_directory fs repo_path s core_version verAvail with
          | mk errs out =>
            cases out with
            | exn m =>
              exact absurd hev (by simp [entryValidateOk, hcls, hvd])
            | ok b =>
              simp [runEntries, pyGet, hid, hft, hvd, ihr, entriesErrs, entryErrs,
                hcls, entryIds, entryIdOf, entrySucc, List.filterMap_cons, List.all_cons]
        | null =>
          rw [hid] at hft
          exact absurd hft (by simp [pyTruthy])
        | bool b =>
          rw [hid] at hft
          exact absurd he (by simp [entryOk, classifyEntry, hid, hft])
        | num n =>
          rw [hid] at hft
          exact absurd he (by simp [entryOk, classifyEntry, hid, hft])
        | arr xs =>
          rw [hid] at hft
          exact absurd he (by simp [entryOk, classifyEntry, hid, hft])
        | obj kvs2 =>
          rw [hid] at hft
          exact absurd he (by simp [entryOk, classifyEntry, hid, hft])

/-- With a readable index document that is an object carrying a list-valued
`addons` field, the index loader succeeds. -/
theorem validate_addons_json_ok {fs : FS} {repo_path : String}
    {kvs : List (String × JValue)} {entries : List JValue}
    (hread : fs.read (osJoin repo_path "addons.json")
      = some (FileContent.jsonOk (JValue.obj kvs)))
    (haddons : jLookup kvs "addons" = JValue.arr entries) :
    validate_addons_json fs repo_path = ([], Outcome.ok (some (JValue.obj kvs))) := by
  have hkey : jHasKey kvs "addons" = true := by
    cases hb : jHasKey kvs "addons" with
    | true => rfl
    | false => rw [jLookup_of_not_hasKey hb] at haddons; exact absurd haddons (by simp)
  unfold validate_addons_json
  simp [FS.read_exists hread, hread, pyContains, hkey, pyGetItem, haddons, JValue.isArr]

/-- The driver on a well-formed index with crash-free entries: errors,
validated ids, and exit code 0 or 1 according to the accumulated success
flag. -/
theorem main_run_spec {fs : FS} {repo_path : String} {core_version : Option String}
    {verAvail : Bool} {kvs : List (String × JValue)} {entries : List JValue}
    (hread : fs.read (osJoin repo_path "addons.json")
      = some (FileContent.jsonOk (JValue.obj kvs)))
    (haddons : jLookup kvs "addons" = JValue.arr entries)
    (hok : entries.all entryOk = true)
    (hval : entries.all (entryValidateOk fs repo_path core_version verAvail) = true) :
    main_run fs repo_path core_version verAvail =
      ⟨entriesErrs fs repo_path core_version verAvail (osJoin repo_path "addons.json") entries 0,
        entryIds entries,
        Outcome.ok
          (if entries.all (entrySucc fs repo_path core_version verAvail) then 0 else 1)⟩ := by
  have hkey : jHasKey kvs "addons" = true := by
    cases hb : jHasKey kvs "addons" with
    | true => rfl
    | false => rw [jLookup_of_not_hasKey hb] at haddons; exact absurd haddons (by simp)
  unfold main_run
  rw [validate_addons_json_ok hread haddons]
  simp [pyTruthy, hasKey_ne_nil hkey, pyGetItem, hkey, haddons,
    runEntries_spec fs repo_path core_version verAvail _ entries 0 hok hval]

/-- C7: a repository root without `addons.json` yields exactly one
`MissingFile`-class error naming the index path, exit code 1, and no addon
is validated. -/
theorem c7_missing_index (fs : FS) (repo_path : String) (core_version : Option String)
    (verAvail : Bool)
    (h : fs.existsPath (osJoin repo_path "addons.json") = false) :
    main_run fs repo_path core_version verAvail =
      ⟨[ValError.missingFile (osJoin repo_path "addons.json")], [], Outcome.ok 1⟩ := by
  unfold main_run validate_addons_json
  simp [h]

/-- Witness for C7 on the empty repository. -/
theorem c7_missing_index_witness :
    main_run ⟨[], []⟩ "repo" none true =
      ⟨[ValError.missingFile "repo/addons.json"], [], Outcome.ok 1⟩ :=
  c7_missing_index ⟨[], []⟩ "repo" none true rfl

/-- C8: every call of the `error` reporter emits exactly one machine-readable
annotation line (with its optional location) to standard output and exactly
one plain `ERROR:` line to standard error. -/
theorem c8_reporter_two_lines (message : String) (file : Option String)
    (line col : Option Nat) :
    (error message file line col).1.length = 1 ∧
    (error message file line col).2 = ["ERROR: " ++ message] ∧
    ((error message file line col).1 = ["::error::" ++ message] ∨
      (error message file line col).1
        = ["::error " ++ errorLocation file line col ++ "::" ++ message]) := by
  unfold error
  by_cases h : errorLocation file line col = "" <;> simp [h]

/-- Addon directory whose manifest's `domain` is a JSON number. -/
def fsC9a : FS :=
  ⟨["r/a"],
   [("r/a/manifest.json", FileContent.jsonOk (JValue.obj
      [("domain", JValue.num 3), ("name", JValue.str "x"),
       ("version", JValue.str "1.0")]))]⟩

/-- Addon directory whose manifest's `implementations` is a nonempty JSON
list, with `integration.py` present. -/
def fsC9b : FS :=
  ⟨["r/a"],
   [("r/a/manifest.json", FileContent.jsonOk (JValue.obj
      [("domain", JValue.str "a"), ("name", JValue.str "x"),
       ("version", JValue.str "1.0"),
       ("implementations", JValue.arr [JValue.str "x"])])),
    ("r/a/integration.py", FileContent.jsonBad "" 0 0)]⟩

/-- C9: syntactically valid JSON manifests on which
`validate_addon_directory` raises an uncaught exception rather than
returning a boolean: a non-string `domain` (attribute `isidentifier` is
absent), and a truthy non-dict `implementations` with `integration.py`
present (attribute `items` is absent). -/
theorem c9_uncaught_exceptions :
    validate_addon_directory fsC9a "r" "a" none true
      = ([], Outcome.exn "AttributeError: isidentifier") ∧
    validate_addon_directory fsC9b "r" "a" none true
      = ([], Outcome.exn "AttributeError: items") :=
  ⟨rfl, rfl⟩

/-- C3: a decoded manifest missing a required key produces exactly one
`MissingField` error, for the first missing field in the order `domain`,
`name`, `version`, and the addon fails with no later check evaluated. -/
theorem c3_missing_field (fs : FS) (repo_path addon_id : String)
    (core_version : Option String) (verAvail : Bool) (kvs : List (String × JValue))
    (hdir : fs.isDir (osJoin repo_path addon_id) = true)
    (hread : fs.read (osJoin (osJoin repo_path addon_id) "manifest.json")
      = some (FileContent.jsonOk (JValue.obj kvs)))
    (hmiss : jHasKey kvs "domain" = false ∨ jHasKey kvs "name" = false ∨
      jHasKey kvs "version" = false) :
    validate_addon_directory fs repo_path addon_id core_version verAvail =
      ([ValError.missingField
          (if jHasKey kvs "domain" = false then "domain"
            else if jHasKey kvs "name" = false then "name" else "version")
          (osJoin (osJoin repo_path addon_id) "manifest.json")],
        Outcome.ok false) := by
  rw [validate_manifest hdir hread]
  unfold manifestChecks
  cases hd : jHasKey kvs "domain" with
  | false => simp [firstMissingField, requiredManifestFields, pyContains, hd]
  | true =>
    cases hn : jHasKey kvs "name" with
    | false => simp [firstMissingField, requiredManifestFields, pyContains, hd, hn]
    | true =>
      cases hv : jHasKey kvs "version" with
      | false => simp [firstMissingField, requiredManifestFields, pyContains, hd, hn, hv]
      | true =>
        rw [hd, hn, hv] at hmiss
        rcases hmiss with h | h | h <;> exact absurd h (by simp)

/-- Addon directory whose manifest lacks `domain` and `version`. -/
def fsC3 : FS :=
  ⟨["r/a"],
   [("r/a/manifest.json", FileContent.jsonOk (JValue.obj
      [("name", JValue.str "x")]))]⟩

/-- Witness for C3: with `domain` and `version` both missing, only
`MissingField domain` is reported. -/
theorem c3_missing_field_witness :
    validate_addon_directory fsC3 "r" "a" none true =
      ([ValError.missingField "domain" "r/a/manifest.json"], Outcome.ok false) :=
  c3_missing_field fsC3 "r" "a" none true [("name", JValue.str "x")] rfl rfl (Or.inl rfl)

/-- Under directory, manifest, required-field, domain-syntax and
no-`implementations`-key hypotheses with the implicit `integration.py`
present, per-addon validation reduces to the core-version stage. -/
theorem validate_reaches_version (fs : FS) (repo_path addon_id : String)
    (core_version : Option String) (verAvail : Bool) (kvs : List (String × JValue))
    (d : String)
    (hdir : fs.isDir (osJoin repo_path addon_id) = true)
    (hread : fs.read (osJoin (osJoin repo_path addon_id) "manifest.json")
      = some (FileContent.jsonOk (JValue.obj kvs)))
    (hd : jHasKey kvs "domain" = true) (hn : jHasKey kvs "name" = true)
    (hv : jHasKey kvs "version" = true)
    (hdom : jLookup kvs "domain" = JValue.str d)
    (hidok : pyIsIdentifier d = true)
    (hnoimpl : jHasKey kvs "implementations" = false)
    (hfile : fs.existsPath (osJoin (osJoin repo_path addon_id) "integration.py") = true) :
    validate_addon_directory fs repo_path addon_id core_version verAvail =
      versionStage (osJoin (osJoin repo_path addon_id) "manifest.json") addon_id
        (JValue.obj kvs) core_version verAvail := by
  rw [validate_manifest hdir hread, manifestChecks_domain hd hn hv hdom]
  rw [hidok]
  simp only [Bool.true_eq_false, if_false]
  rw [implStage_noKey hnoimpl, hfile]
  simp

/-- C4: with no `implementations` key, an addon without `integration.py`
fails with `MissingImplementations`, while with `integration.py` present the
implementation-resolution check passes and validation proceeds to the
core-version stage. -/
theorem c4_implicit_fallback (fs : FS) (repo_path addon_id : String)
    (core_version : Option String) (verAvail : Bool) (kvs : List (String × JValue))
    (d : String)
    (hdir : fs.isDir (osJoin repo_path addon_id) = true)
    (hread : fs.read (osJoin (osJoin repo_path addon_id) "manifest.json")
      = some (FileContent.jsonOk (JValue.obj kvs)))
    (hd : jHasKey kvs "domain" = true) (hn : jHasKey kvs "name" = true)
    (hv : jHasKey kvs "version" = true)
    (hdom : jLookup kvs "domain" = JValue.str d)
    (hidok : pyIsIdentifier d = true)
    (hnoimpl : jHasKey kvs "implementations" = false) :
    (fs.existsPath (osJoin (osJoin repo_path addon_id) "integration.py") = false →
      validate_addon_directory fs repo_path addon_id core_version verAvail =
        ([ValError.missingImplementations addon_id
            (osJoin (osJoin repo_path addon_id) "manifest.json")], Outcome.ok false)) ∧
    (fs.existsPath (osJoin (osJoin repo_path addon_id) "integration.py") = true →
      validate_addon_directory fs repo_path addon_id core_version verAvail =
        versionStage (osJoin (osJoin repo_path addon_id) "manifest.json") addon_id
          (JValue.obj kvs) core_version verAvail) := by
  constructor
  · intro hmiss
    rw [validate_manifest hdir hread, manifestChecks_domain hd hn hv hdom]
    rw [hidok]
    simp only [Bool.true_eq_false, if_false]
    rw [implStage_noKey hnoimpl, hmiss]
    simp
  · intro hfile
    exact validate_reaches_version fs repo_path addon_id core_version verAvail kvs d
      hdir hread hd hn hv hdom hidok hnoimpl hfile

/-- Addon directory with a valid manifest, no `implementations` key and no
`integration.py`. -/
def fsC4a : FS :=
  ⟨["r/a"],
   [("r/a/manifest.json", FileContent.jsonOk (JValue.obj
      [("domain", JValue.str "a"), ("name", JValue.str "x"),
       ("version", JValue.str "1.0")]))]⟩

/-- The same addon directory with `integration.py` present. -/
def fsC4b : FS :=
  ⟨["r/a"],
   [("r/a/manifest.json", FileContent.jsonOk (JValue.obj
      [("domain", JValue.str "a"), ("name", JValue.str "x"),
       ("version", JValue.str "1.0")])),
    ("r/a/integration.py", FileContent.jsonBad "" 0 0)]⟩

/-- Witness for C4 on both branches of the implicit fallback. -/
theorem c4_implicit_fallback_witness :
    validate_addon_directory fsC4a "r" "a" none true =
      ([ValError.missingImplementations "a" "r/a/manifest.json"], Outcome.ok false) ∧
    validate_addon_directory fsC4b "r" "a" none true =
      versionStage "r/a/manifest.json" "a"
        (JValue.obj [("domain", JValue.str "a"), ("name", JValue.str "x"),
          ("version", JValue.str "1.0")]) none true :=
  ⟨(c4_implicit_fallback fsC4a "r" "a" none true
      [("domain", JValue.str "a"), ("name", JValue.str "x"), ("version", JValue.str "1.0")]
      "a" rfl rfl rfl rfl rfl rfl rfl rfl).1 rfl,
   (c4_implicit_fallback fsC4b "r" "a" none true
      [("domain", JValue.str "a"), ("name", JValue.str "x"), ("version", JValue.str "1.0")]
      "a" rfl rfl rfl rfl rfl rfl rfl rfl).2 rfl⟩

/-- C5: with the comparison capability available and `min_core_version`
set to `2.0.0`, a supplied core version `1.9.0` fails the addon with
`IncompatibleCoreVersion`; any supplied core version that parses at or above
`2.0.0` passes; and omitting the core version skips the check, so the addon
passes. -/
theorem c5_core_compat (fs : FS) (repo_path addon_id : String)
    (kvs : List (String × JValue)) (d : String)
    (hdir : fs.isDir (osJoin repo_path addon_id) = true)
    (hread : fs.read (osJoin (osJoin repo_path addon_id) "manifest.json")
      = some (FileContent.jsonOk (JValue.obj kvs)))
    (hd : jHasKey kvs "domain" = true) (hn : jHasKey kvs "name" = true)
    (hv : jHasKey kvs "version" = true)
    (hdom : jLookup kvs "domain" = JValue.str d)
    (hidok : pyIsIdentifier d = true)
    (hnoimpl : jHasKey kvs "implementations" = false)
    (hfile : fs.existsPath (osJoin (osJoin repo_path addon_id) "integration.py") = true)
    (hmin : jLookup kvs "min_core_version" = JValue.str "2.0.0") :
    (validate_addon_directory fs repo_path addon_id (some "1.9.0") true =
      ([ValError.incompatibleCoreVersion addon_id (JValue.str "2.0.0") "1.9.0"
          (osJoin (osJoin repo_path addon_id) "manifest.json")], Outcome.ok false)) ∧
    (∀ (cs : String) (v : PVersion), pyVersionParseStr cs = some v →
      cmpPV v ⟨[2, 0, 0], none⟩ ≠ Ordering.lt →
      validate_addon_directory fs repo_path addon_id (some cs) true = ([], Outcome.ok true)) ∧
    (validate_addon_directory fs repo_path addon_id none true = ([], Outcome.ok true)) := by
  have hget : pyGet (JValue.obj kvs) "min_core_version" = Outcome.ok (JValue.str "2.0.0") := by
    simp [pyGet, hmin]
  refine ⟨?_, ?_, ?_⟩
  · rw [validate_reaches_version fs repo_path addon_id (some "1.9.0") true kvs d
      hdir hread hd hn hv hdom hidok hnoimpl hfile]
    unfold versionStage
    rw [hget]
    rfl
  · intro cs v hparse hge
    have hcs : cs ≠ "" := by
      intro hcontra
      rw [hcontra, parse_empty_none] at hparse
      exact absurd hparse (by simp)
    rw [validate_reaches_version fs repo_path addon_id (some cs) true kvs d
      hdir hread hd hn hv hdom hidok hnoimpl hfile]
    unfold versionStage
    rw [hget]
    simp only [pyTruthy, optStrTruthy, pyVersionParseJ, hparse]
    rw [show pyVersionParseStr "2.0.0" = some ⟨[2, 0, 0], none⟩ from rfl]
    simp [hcs, pvGt_false_of_ge hge]
  · rw [validate_reaches_version fs repo_path addon_id none true kvs d
      hdir hread hd hn hv hdom hidok hnoimpl hfile]
    unfold versionStage
    rw [hget]
    rfl

/-- Addon directory with a valid manifest requiring core `2.0.0` and the
implicit `integration.py`. -/
def fsC5 : FS :=
  ⟨["r/a"],
   [("r/a/manifest.json", FileContent.jsonOk (JValue.obj
      [("domain", JValue.str "a"), ("name", JValue.str "x"),
       ("version", JValue.str "1.0"),
       ("min_core_version", JValue.str "2.0.0")])),
    ("r/a/integration.py", FileContent.jsonBad "" 0 0)]⟩

/-- Witness for C5 at core versions 1.9.0, 2.0.0, 2.1 and absent. -/
theorem c5_core_compat_witness :
    validate_addon_directory fsC5 "r" "a" (some "1.9.0") true =
      ([ValError.incompatibleCoreVersion "a" (JValue.str "2.0.0") "1.9.0"
          "r/a/manifest.json"], Outcome.ok false) ∧
    validate_addon_directory fsC5 "r" "a" (some "2.0.0") true = ([], Outcome.ok true) ∧
    validate_addon_directory fsC5 "r" "a" (some "2.1") true = ([], Outcome.ok true) ∧
    validate_addon_directory fsC5 "r" "a" none true = ([], Outcome.ok true) := by
  have h := c5_core_compat fsC5 "r" "a"
    [("domain", JValue.str "a"), ("name", JValue.str "x"), ("version", JValue.str "1.0"),
      ("min_core_version", JValue.str "2.0.0")]
    "a" rfl rfl rfl rfl rfl rfl rfl rfl rfl rfl
  exact ⟨h.1, h.2.1 "2.0.0" ⟨[2, 0, 0], none⟩ rfl (by decide),
    h.2.1 "2.1" ⟨[2, 1], none⟩ rfl (by decide), h.2.2⟩

/-- C2 as stated fails on the code: an empty-string `min_core_version` does
not parse as a version, yet the check `if min_ver and core_version and
version:` skips it silently and the addon passes. -/
def fsC2 : FS :=
  ⟨["r/a"],
   [("r/a/manifest.json", FileContent.jsonOk (JValue.obj
      [("domain", JValue.str "a"), ("name", JValue.str "x"),
       ("version", JValue.str "1.0"),
       ("min_core_version", JValue.str "")])),
    ("r/a/integration.py", FileContent.jsonBad "" 0 0)]⟩

/-- Counterexample to C2: the manifest carries the unparseable
`min_core_version` value `""` and a core version is supplied, yet validation
reports no error and returns `True`. -/
theorem c2_version_parse_counterexample :
    pyVersionParseStr "" = none ∧
    validate_addon_directory fsC2 "r" "a" (some "1.0") true = ([], Outcome.ok true) :=
  ⟨rfl, rfl⟩

/-- C2 (amended): a truthy (non-empty) string `min_core_version` that fails
to parse, with a non-empty core version supplied and the comparison
capability available, yields a `VersionParseError`-class error and fails the
addon; only falsy values are skipped. -/
theorem c2_version_parse_amended (fs : FS) (repo_path addon_id : String)
    (kvs : List (String × JValue)) (d ms cs : String)
    (hdir : fs.isDir (osJoin repo_path addon_id) = true)
    (hread : fs.read (osJoin (osJoin repo_path addon_id) "manifest.json")
      = some (FileContent.jsonOk (JValue.obj kvs)))
    (hd : jHasKey kvs "domain" = true) (hn : jHasKey kvs "name" = true)
    (hv : jHasKey kvs "version" = true)
    (hdom : jLookup kvs "domain" = JValue.str d)
    (hidok : pyIsIdentifier d = true)
    (hnoimpl : jHasKey kvs "implementations" = false)
    (hfile : fs.existsPath (osJoin (osJoin repo_path addon_id) "integration.py") = true)
    (hmin : jLookup kvs "min_core_version" = JValue.str ms)
    (hms : ms ≠ "") (hcs : cs ≠ "")
    (hbad : pyVersionParseStr ms = none) :
    validate_addon_directory fs repo_path addon_id (some cs) true =
      ([ValError.versionParseError addon_id (JValue.str ms) cs
          (osJoin (osJoin repo_path addon_id) "manifest.json")], Outcome.ok false) := by
  rw [validate_reaches_version fs repo_path addon_id (some cs) true kvs d
    hdir hread hd hn hv hdom hidok hnoimpl hfile]
  unfold versionStage
  rw [show pyGet (JValue.obj kvs) "min_core_version" = Outcome.ok (JValue.str ms) from
    by simp [pyGet, hmin]]
  simp [pyTruthy, optStrTruthy, pyVersionParseJ, hms, hcs, hbad]

/-- The fsC2 layout with the unparseable `min_core_version` value `"x.y"`. -/
def fsC2w : FS :=
  ⟨["r/a"],
   [("r/a/manifest.json", FileContent.jsonOk (JValue.obj
      [("domain", JValue.str "a"), ("name", JValue.str "x"),
       ("version", JValue.str "1.0"),
       ("min_core_version", JValue.str "x.y")])),
    ("r/a/integration.py", FileContent.jsonBad "" 0 0)]⟩

/-- Witness for the amended C2 at the unparseable minimum `"x.y"`. -/
theorem c2_version_parse_amended_witness :
    validate_addon_directory fsC2w "r" "a" (some "1.0") true =
      ([ValError.versionParseError "a" (JValue.str "x.y") "1.0"
          "r/a/manifest.json"], Outcome.ok false) :=
  c2_version_parse_amended fsC2w "r" "a"
    [("domain", JValue.str "a"), ("name", JValue.str "x"), ("version", JValue.str "1.0"),
      ("min_core_version", JValue.str "x.y")]
    "a" "x.y" "1.0" rfl rfl rfl rfl rfl rfl rfl rfl rfl rfl
    (by decide) (by decide) rfl

/-- Addon directory whose manifest's domain is the non-ASCII Unicode
identifier `café`. -/
def fsC1 : FS :=
  ⟨["r/a"],
   [("r/a/manifest.json", FileContent.jsonOk (JValue.obj
      [("domain", JValue.str "café"), ("name", JValue.str "x"),
       ("version", JValue.str "1.0")])),
    ("r/a/integration.py", FileContent.jsonBad "" 0 0)]⟩

/-- Counterexample to C1: the domain `café` does not match the ASCII pattern
^[A-Za-z_][A-Za-z0-9_]*$, yet Python's Unicode `str.isidentifier` accepts
it, the domain-syntax check passes and the addon validates with no error. -/
theorem c1_domain_pattern_counterexample :
    asciiIdentMatch "café" = false ∧
    validate_addon_directory fsC1 "r" "a" none true = ([], Outcome.ok true) :=
  ⟨by decide, rfl⟩

/-- C1 (amended): every domain string matching ^[A-Za-z_][A-Za-z0-9_]*$
passes the domain-syntax check, and every all-ASCII domain string not
matching it fails the check with an `InvalidDomain` error and a `False`
return; non-ASCII Unicode identifier characters, however, are also accepted
by the code's `str.isidentifier`. -/
theorem c1_domain_pattern_amended :
    (∀ s : String, asciiIdentMatch s = true → pyIsIdentifier s = true) ∧
    (∀ (fs : FS) (repo_path addon_id : String) (core_version : Option String)
      (verAvail : Bool) (kvs : List (String × JValue)) (s : String),
      fs.isDir (osJoin repo_path addon_id) = true →
      fs.read (osJoin (osJoin repo_path addon_id) "manifest.json")
        = some (FileContent.jsonOk (JValue.obj kvs)) →
      jHasKey kvs "domain" = true → jHasKey kvs "name" = true →
      jHasKey kvs "version" = true →
      jLookup kvs "domain" = JValue.str s →
      s.data.all (fun c => decide (c.toNat < 128)) = true →
      asciiIdentMatch s = false →
      validate_addon_directory fs repo_path addon_id core_version verAvail =
        ([ValError.invalidDomain (JValue.str s)
            (osJoin (osJoin repo_path addon_id) "manifest.json")], Outcome.ok false)) := by
  constructor
  · exact fun s h => asciiMatch_pyIdent h
  · intro fs repo_path addon_id core_version verAvail kvs s hdir hread hd hn hv hdom
      hascii hnm
    rw [validate_manifest hdir hread, manifestChecks_domain hd hn hv hdom]
    rw [pyIdent_eq_asciiMatch hascii, hnm]
    simp

/-- Addon directory whose manifest's domain starts with a digit. -/
def fsC1w : FS :=
  ⟨["r/a"],
   [("r/a/manifest.json", FileContent.jsonOk (JValue.obj
      [("domain", JValue.str "9bad"), ("name", JValue.str "x"),
       ("version", JValue.str "1.0")]))]⟩

/-- Witness for the amended C1: `ab_1` matches and is accepted; the ASCII
non-match `9bad` is rejected with `InvalidDomain`. -/
theorem c1_domain_pattern_witness :
    pyIsIdentifier "ab_1" = true ∧
    validate_addon_directory fsC1w "r" "a" none true =
      ([ValError.invalidDomain (JValue.str "9bad") "r/a/manifest.json"],
        Outcome.ok false) :=
  ⟨c1_domain_pattern_amended.1 "ab_1" rfl,
   c1_domain_pattern_amended.2 fsC1w "r" "a" none true
     [("domain", JValue.str "9bad"), ("name", JValue.str "x"),
       ("version", JValue.str "1.0")]
     "9bad" rfl rfl rfl rfl rfl rfl rfl rfl⟩

/-- C6: an index entry whose addon subdirectory is absent gets a
`MissingDirectory`-class error, the loop still validates every other listed
addon, and the run exits 1 even when all other addons validate. -/
theorem c6_missing_directory (fs : FS) (repo_path : String)
    (core_version : Option String) (verAvail : Bool)
    (kvs bkvs : List (String × JValue)) (pre post : List JValue) (a : String)
    (hread : fs.read (osJoin repo_path "addons.json")
      = some (FileContent.jsonOk (JValue.obj kvs)))
    (haddons : jLookup kvs "addons" = JValue.arr (pre ++ JValue.obj bkvs :: post))
    (hok : (pre ++ JValue.obj bkvs :: post).all entryOk = true)
    (hval : (pre ++ JValue.obj bkvs :: post).all
      (entryValidateOk fs repo_path core_version verAvail) = true)
    (hid : jLookup bkvs "id" = JValue.str a) (ha : a ≠ "")
    (hdir : fs.isDir (osJoin repo_path a) = false) :
    ValError.missingDirectory a (osJoin repo_path a)
        ∈ (main_run fs repo_path core_version verAvail).errors ∧
    (main_run fs repo_path core_version verAvail).validated
        = entryIds pre ++ a :: entryIds post ∧
    (main_run fs repo_path core_version verAvail).result = Outcome.ok 1 := by
  have hcls : classifyEntry (JValue.obj bkvs) = EntryClass.addon a := by
    simp [classifyEntry, hid, pyTruthy, ha]
  have hvd := @validate_missingDir fs repo_path a core_version verAvail hdir
  rw [main_run_spec hread haddons hok hval]
  refine ⟨?_, ?_, ?_⟩
  · show _ ∈ entriesErrs fs repo_path core_version verAvail
      (osJoin repo_path "addons.json") (pre ++ JValue.obj bkvs :: post) 0
    rw [entriesErrs_append]
    refine List.mem_append.mpr (Or.inr ?_)
    simp [entriesErrs, entryErrs, hcls, hvd]
  · simp [entryIds, List.filterMap_append, List.filterMap_cons, entryIdOf, hcls]
  · have hsucc : entrySucc fs repo_path core_version verAvail (JValue.obj bkvs) = false := by
      simp [entrySucc, hcls, hvd]
    simp [List.all_append, List.all_cons, hsucc]

/-- Repository with two listed addons: `a` is fully valid, the subdirectory
of `b` is absent. -/
def fsC6 : FS :=
  ⟨["r", "r/a"],
   [("r/addons.json", FileContent.jsonOk (JValue.obj
      [("addons", JValue.arr
        [JValue.obj [("id", JValue.str "a")], JValue.obj [("id", JValue.str "b")]])])),
    ("r/a/manifest.json", FileContent.jsonOk (JValue.obj
      [("domain", JValue.str "a"), ("name", JValue.str "x"),
       ("version", JValue.str "1.0")])),
    ("r/a/integration.py", FileContent.jsonBad "" 0 0)]⟩

/-- Witness for C6: addon `b` has no directory, both addons are iterated,
the run exits 1. -/
theorem c6_missing_directory_witness :
    ValError.missingDirectory "b" "r/b" ∈ (main_run fsC6 "r" none true).errors ∧
    (main_run fsC6 "r" none true).validated = ["a", "b"] ∧
    (main_run fsC6 "r" none true).result = Outcome.ok 1 :=
  c6_missing_directory fsC6 "r" none true
    [("addons", JValue.arr
      [JValue.obj [("id", JValue.str "a")], JValue.obj [("id", JValue.str "b")]])]
    [("id", JValue.str "b")]
    [JValue.obj [("id", JValue.str "a")]] [] "b"
    rfl rfl rfl (by decide) rfl (by decide) rfl

/-- C10: an index entry with an absent or falsy `id` produces an error
naming the index file and the entry position, fails the run with exit 1,
skips per-addon validation for that entry and continues with the rest. -/
theorem c10_entry_missing_id (fs : FS) (repo_path : String)
    (core_version : Option String) (verAvail : Bool)
    (kvs bkvs : List (String × JValue)) (pre post : List JValue)
    (hread : fs.read (osJoin repo_path "addons.json")
      = some (FileContent.jsonOk (JValue.obj kvs)))
    (haddons : jLookup kvs "addons" = JValue.arr (pre ++ JValue.obj bkvs :: post))
    (hok : (pre ++ JValue.obj bkvs :: post).all entryOk = true)
    (hval : (pre ++ JValue.obj bkvs :: post).all
      (entryValidateOk fs repo_path core_version verAvail) = true)
    (hid : pyTruthy (jLookup bkvs "id") = false) :
    ValError.entryMissingId pre.length (osJoin repo_path "addons.json")
        ∈ (main_run fs repo_path core_version verAvail).errors ∧
    (main_run fs repo_path core_version verAvail).validated
        = entryIds pre ++ entryIds post ∧
    (main_run fs repo_path core_version verAvail).result = Outcome.ok 1 := by
  have hcls : classifyEntry (JValue.obj bkvs) = EntryClass.noId := by
    simp [classifyEntry, hid]
  rw [main_run_spec hread haddons hok hval]
  refine ⟨?_, ?_, ?_⟩
  · show _ ∈ entriesErrs fs repo_path core_version verAvail
      (osJoin repo_path "addons.json") (pre ++ JValue.obj bkvs :: post) 0
    rw [entriesErrs_append]
    refine List.mem_append.mpr (Or.inr ?_)
    simp [entriesErrs, entryErrs, hcls]
  · simp [entryIds, List.filterMap_append, List.filterMap_cons, entryIdOf, hcls]
  · have hsucc : entrySucc fs repo_path core_version verAvail (JValue.obj bkvs) = false := by
      simp [entrySucc, hcls]
    simp [List.all_append, List.all_cons, hsucc]

/-- Repository with three index entries: valid addon `a`, an entry with no
`id` key, and valid addon `c`. -/
def fsC10 : FS :=
  ⟨["r", "r/a", "r/c"],
   [("r/addons.json", FileContent.jsonOk (JValue.obj
      [("addons", JValue.arr
        [JValue.obj [("id", JValue.str "a")], JValue.obj [],
         JValue.obj [("id", JValue.str "c")]])])),
    ("r/a/manifest.json", FileContent.jsonOk (JValue.obj
      [("domain", JValue.str "a"), ("name", JValue.str "x"),
       ("version", JValue.str "1.0")])),
    ("r/a/integration.py", FileContent.jsonBad "" 0 0),
    ("r/c/manifest.json", FileContent.jsonOk (JValue.obj
      [("domain", JValue.str "c"), ("name", JValue.str "x"),
       ("version", JValue.str "1.0")])),
    ("r/c/integration.py", FileContent.jsonBad "" 0 0)]⟩

/-- Witness for C10: the id-less entry at position 1 is reported against the
index file, addons `a` and `c` are still validated, the run exits 1. -/
theorem c10_entry_missing_id_witness :
    ValError.entryMissingId 1 "r/addons.json" ∈ (main_run fsC10 "r" none true).errors ∧
    (main_run fsC10 "r" none true).validated = ["a", "c"] ∧
    (main_run fsC10 "r" none true).result = Outcome.ok 1 :=
  c10_entry_missing_id fsC10 "r" none true
    [("addons", JValue.arr
      [JValue.obj [("id", JValue.str "a")], JValue.obj [],
       JValue.obj [("id", JValue.str "c")]])]
    []
    [JValue.obj [("id", JValue.str "a")]] [JValue.obj [("id", JValue.str "c")]]
    rfl rfl rfl (by decide) rfl

end Validate
